import Mathlib

/-!
# Camara-React: the recording screen of `src/App.js`

A shallow embedding of the single React component `App`.

* The React state cells (`useState`) and the two cached permission objects
  returned by the permission hooks form the record `State`.
* The JavaScript runtime and the platform collaborators are made explicit in
  `World`: the set of interval timers that are currently active, the next
  timer handle, and the trace of calls issued to the camera, to the media
  library, to the permission hooks, to `Alert.alert` and to `console.error`.
* Every handler of the component is a function `World → outcome → World`,
  where the outcome says how the awaited platform call settled.
* `startRecording` suspends at `await camera.recordAsync()`: its two halves are
  `startRecordingCall` (up to the call) and `startRecordingResume` (after the
  promise settles), between which other handlers may run; `startRecording` is
  the run of both halves with nothing in between.
* `recordingTime` is a JavaScript number that only ever holds `0` or the
  result of `prev + 1`; it is embedded as a natural number.
-/

namespace CamaraReact

/-! ## Data model -/

/-- Value of the `facing` state cell: the strings `'back'` and `'front'`. -/
inductive Facing where
  | back
  | front
  deriving DecidableEq, Repr

/-- Status carried by a permission response of the platform. -/
inductive PermissionStatus where
  | undetermined
  | granted
  | denied
  deriving DecidableEq, Repr

/-- Permission object returned by `useCameraPermissions` and
`MediaLibrary.usePermissions`. -/
structure PermissionResponse where
  status : PermissionStatus
  deriving DecidableEq, Repr

/-- Field `granted` of a permission response: true exactly for the status
`granted`. -/
def PermissionResponse.granted (p : PermissionResponse) : Bool :=
  decide (p.status = PermissionStatus.granted)

/-- Expression `permission?.granted` read as a condition: a hook that has not
produced an object yet (`null`) gives `undefined`, which is falsy. -/
def grantedOf : Option PermissionResponse → Bool
  | none => false
  | some p => p.granted

/-- Object handed to `onRecordingEnd`; only its `uri` is read. -/
structure Video where
  uri : String
  deriving DecidableEq, Repr

/-- Reference to the mounted `CameraView`, as delivered by the `ref` callback. -/
structure CameraRef where
  id : Nat
  deriving DecidableEq, Repr

/-- Asset returned by `MediaLibrary.createAssetAsync`. -/
structure Asset where
  id : Nat
  deriving DecidableEq, Repr

/-- Calls that leave the component, in the order they are issued. -/
inductive Effect where
  | requestCameraPermission
  | requestMediaLibraryPermission
  | recordAsync (camera : CameraRef)
  | stopRecording (camera : CameraRef)
  | createAssetAsync (uri : String)
  | createAlbumAsync (albumName : String) (asset : Asset) (copyAsset : Bool)
  | alert (title : String) (message : String)
  | consoleError (message : String)
  deriving DecidableEq, Repr

/-- React state of `App` (lines 7-14): the five `useState` cells and the two
cached permission objects. -/
structure State where
  facing : Facing
  isRecording : Bool
  recordingTime : Nat
  timerInterval : Option Nat
  camera : Option CameraRef
  cameraPermission : Option PermissionResponse
  mediaLibraryPermission : Option PermissionResponse
  deriving DecidableEq, Repr

/-- Component state together with the runtime around it. -/
structure World where
  state : State
  /-- Handles of the interval timers that are active. -/
  intervals : List Nat
  /-- Handle the next `setInterval` returns. -/
  nextHandle : Nat
  /-- Calls issued so far, oldest first. -/
  trace : List Effect
  deriving DecidableEq, Repr

/-- How `await camera.recordAsync()` settles. -/
inductive RecordOutcome where
  | accepted (video : Video)
  | rejected
  deriving DecidableEq, Repr

/-- How the synchronous call `camera.stopRecording()` ends. -/
inductive StopOutcome where
  | returned
  | thrown
  deriving DecidableEq, Repr

/-! ## Runtime: interval timers -/

/-- Runtime call `clearInterval(handle)`: a `null` handle, or one that is not
active, cancels nothing. -/
def clearInterval (handle : Option Nat) (active : List Nat) : List Nat :=
  match handle with
  | none => active
  | some h => active.filter (fun k => k != h)

/-- Callback given to `setInterval` on line 34:
`setRecordingTime(prev => prev + 1)`. -/
def intervalCallback (s : State) : State :=
  { s with recordingTime := s.recordingTime + 1 }

/-- One period of 1000 ms elapses: every active interval timer runs its
callback once. -/
def tick (w : World) : World :=
  { w with state := w.intervals.foldl (fun s _ => intervalCallback s) w.state }

/-- Passage of `n` periods. -/
def ticks (n : Nat) (w : World) : World :=
  Nat.iterate tick n w

/-! ## Initial state and mounting -/

/-- Initial values of the state cells (lines 7-11) with the permission objects
the hooks return on the first render. -/
def initialState (cameraPermission mediaLibraryPermission : Option PermissionResponse) :
    State :=
  { facing := Facing.back
    isRecording := false
    recordingTime := 0
    timerInterval := none
    camera := none
    cameraPermission := cameraPermission
    mediaLibraryPermission := mediaLibraryPermission }

/-- World at the first render: no timer is active and nothing was called. -/
def initialWorld (cameraPermission mediaLibraryPermission : Option PermissionResponse) :
    World :=
  { state := initialState cameraPermission mediaLibraryPermission
    intervals := []
    nextHandle := 1
    trace := [] }

/-- The `ref` callback of `CameraView` (line 107): `setCamera(ref)`. -/
def setCamera (w : World) (ref : Option CameraRef) : World :=
  { w with state := { w.state with camera := ref } }

/-- Screen once both permissions are granted and the camera view has mounted
and delivered its reference. -/
def mounted (cam : CameraRef) : World :=
  setCamera
    (initialWorld (some ⟨PermissionStatus.granted⟩) (some ⟨PermissionStatus.granted⟩))
    (some cam)

/-! ## Permission effect (lines 17-22) -/

/-- Requests issued by the mount effect: each hook is asked only when its
cached object is not granted.  Both conditions read the objects captured by
the render that scheduled the effect. -/
def permissionRequests (s : State) : List Effect :=
  (if !grantedOf s.cameraPermission then [Effect.requestCameraPermission] else []) ++
  (if !grantedOf s.mediaLibraryPermission then [Effect.requestMediaLibraryPermission]
   else [])

/-- Mount effect.  A request resolves to a status (`cameraAnswer`,
`mediaLibraryAnswer`), which the hook then stores in its cached object. -/
def permissionEffect (w : World) (cameraAnswer mediaLibraryAnswer : PermissionStatus) :
    World :=
  { w with
    state :=
      { w.state with
        cameraPermission :=
          if !grantedOf w.state.cameraPermission then some ⟨cameraAnswer⟩
          else w.state.cameraPermission
        mediaLibraryPermission :=
          if !grantedOf w.state.mediaLibraryPermission then some ⟨mediaLibraryAnswer⟩
          else w.state.mediaLibraryPermission }
    trace := w.trace ++ permissionRequests w.state }

/-! ## Handlers -/

/-- Handler `startRecording` (lines 25-44). -/
def startRecording (w : World) (outcome : RecordOutcome) : World :=
  match w.state.camera with
  | none => w
  | some cam =>
    match outcome with
    | RecordOutcome.accepted _ =>
      let interval := w.nextHandle
      { state := { w.state with isRecording := true, timerInterval := some interval }
        intervals := w.intervals ++ [interval]
        nextHandle := w.nextHandle + 1
        trace := w.trace ++ [Effect.recordAsync cam] }
    | RecordOutcome.rejected =>
      { w with
        trace := w.trace ++
          [Effect.recordAsync cam,
           Effect.consoleError "Error al iniciar grabación:",
           Effect.alert "Error" "No se pudo iniciar la grabación"] }

/-- Handler `stopRecording` (lines 47-63). -/
def stopRecording (w : World) (outcome : StopOutcome) : World :=
  match w.state.camera with
  | none => w
  | some cam =>
    match outcome with
    | StopOutcome.returned =>
      { state := { w.state with isRecording := false, recordingTime := 0 }
        intervals := clearInterval w.state.timerInterval w.intervals
        nextHandle := w.nextHandle
        trace := w.trace ++ [Effect.stopRecording cam] }
    | StopOutcome.thrown =>
      { w with
        trace := w.trace ++
          [Effect.stopRecording cam,
           Effect.consoleError "Error al detener grabación:",
           Effect.alert "Error" "No se pudo detener la grabación"] }

/-- Calls made by `saveVideo(uri)` (lines 66-77).  `assetResult` is the asset
`createAssetAsync` resolves to (`none` when it rejects); `albumCreated` says
whether `createAlbumAsync` resolves. -/
def saveVideoEffects (uri : String) (assetResult : Option Asset) (albumCreated : Bool) :
    List Effect :=
  match assetResult with
  | none =>
    [Effect.createAssetAsync uri,
     Effect.consoleError "Error al guardar video:",
     Effect.alert "Error" "No se pudo guardar el video"]
  | some asset =>
    if albumCreated then
      [Effect.createAssetAsync uri,
       Effect.createAlbumAsync "Grabaciones" asset false,
       Effect.alert "Video guardado" "El video se ha guardado en la galería"]
    else
      [Effect.createAssetAsync uri,
       Effect.createAlbumAsync "Grabaciones" asset false,
       Effect.consoleError "Error al guardar video:",
       Effect.alert "Error" "No se pudo guardar el video"]

/-- Function `saveVideo` run in a world: it sets no state cell. -/
def saveVideo (w : World) (uri : String) (assetResult : Option Asset)
    (albumCreated : Bool) : World :=
  { w with trace := w.trace ++ saveVideoEffects uri assetResult albumCreated }

/-- The `onRecordingEnd` callback (lines 115-118): `await saveVideo(video.uri)`. -/
def onRecordingEnd (w : World) (video : Video) (assetResult : Option Asset)
    (albumCreated : Bool) : World :=
  saveVideo w video.uri assetResult albumCreated

/-- Handler `toggleCameraFacing` (lines 80-82). -/
def toggleCameraFacing (w : World) : World :=
  { w with
    state :=
      { w.state with
        facing := if w.state.facing = Facing.back then Facing.front else Facing.back } }

/-! ## Rendering -/

/-- JavaScript `String.prototype.padStart(targetLength, padString)`. -/
def padStart (s : String) (targetLength : Nat) (padString : String) : String :=
  if targetLength ≤ s.length ∨ padString.length = 0 then s
  else
    let fillLen := targetLength - s.length
    String.mk (((List.replicate fillLen padString.data).flatten).take fillLen) ++ s

/-- Template literal of lines 124-128. -/
def timerText (recordingTime : Nat) : String :=
  padStart (toString (recordingTime / 60)) 2 "0" ++ ":" ++
    padStart (toString (recordingTime % 60)) 2 "0"

/-- Handlers a pressable element can be bound to. -/
inductive Handler where
  | requestPermissions
  | toggleCameraFacing
  | startRecording
  | stopRecording
  deriving DecidableEq, Repr

/-- A `TouchableOpacity` with its style name, its `onPress` and its label. -/
structure Touchable where
  style : String
  onPress : Handler
  label : String
  deriving DecidableEq, Repr

/-- What the component returns: the permission gate (lines 86-101) or the
camera view with the optional timer and the button row (lines 104-161). -/
inductive View where
  | gate (message : String) (button : Touchable)
  | camera (facing : Facing) (timer : Option String) (buttons : List Touchable)
  deriving DecidableEq, Repr

/-- Body of the component after the hooks (lines 85-161). -/
def render (s : State) : View :=
  if !grantedOf s.cameraPermission || !grantedOf s.mediaLibraryPermission then
    View.gate "Por favor, concede permisos de cámara y galería"
      ⟨"permissionButton", Handler.requestPermissions, "Conceder Permisos"⟩
  else
    View.camera s.facing
      (if s.isRecording then some (timerText s.recordingTime) else none)
      [⟨"button", Handler.toggleCameraFacing, "Cambiar Cámara"⟩,
       if !s.isRecording then ⟨"recordButton", Handler.startRecording, "Grabar"⟩
       else ⟨"stopButton", Handler.stopRecording, "Parar"⟩]

/-- Pressable elements of a view. -/
def View.touchables : View → List Touchable
  | View.gate _ button => [button]
  | View.camera _ _ buttons => buttons

/-- Timer text a view displays, if any. -/
def View.timer : View → Option String
  | View.gate _ _ => none
  | View.camera _ t _ => t

/-- Number of elements of the view whose press runs `startRecording`. -/
def View.recordControls (v : View) : Nat :=
  (v.touchables.filter (fun t => decide (t.onPress = Handler.startRecording))).length

/-- Number of elements of the view whose press runs `stopRecording`. -/
def View.stopControls (v : View) : Nat :=
  (v.touchables.filter (fun t => decide (t.onPress = Handler.stopRecording))).length

/-! ## Observations on the trace -/

/-- Alerts of a trace, as (title, message). -/
def alerts : List Effect → List (String × String)
  | [] => []
  | Effect.alert title message :: rest => (title, message) :: alerts rest
  | _ :: rest => alerts rest

/-- Calls to the camera reference in a trace. -/
def cameraCalls (trace : List Effect) : List Effect :=
  trace.filter (fun e =>
    match e with
    | Effect.recordAsync _ => true
    | Effect.stopRecording _ => true
    | _ => false)

/-- Calls to `MediaLibrary` in a trace. -/
def mediaCalls (trace : List Effect) : List Effect :=
  trace.filter (fun e =>
    match e with
    | Effect.createAssetAsync _ => true
    | Effect.createAlbumAsync _ _ _ => true
    | _ => false)

/-! ## The two halves of `startRecording` -/

/-- First half of `startRecording` (lines 26-28): with a camera reference,
`camera.recordAsync()` is called and the handler suspends at the `await`; no
state cell has been set yet. -/
def startRecordingCall (w : World) : World :=
  match w.state.camera with
  | none => w
  | some cam => { w with trace := w.trace ++ [Effect.recordAsync cam] }

/-- Second half of `startRecording`, run when the awaited promise of a
suspended call settles: lines 30-38 when it resolves, lines 40-41 when it
rejects. -/
def startRecordingResume (w : World) (outcome : RecordOutcome) : World :=
  match outcome with
  | RecordOutcome.accepted _ =>
    let interval := w.nextHandle
    { w with
      state := { w.state with isRecording := true, timerInterval := some interval }
      intervals := w.intervals ++ [interval]
      nextHandle := w.nextHandle + 1 }
  | RecordOutcome.rejected =>
    { w with
      trace := w.trace ++
        [Effect.consoleError "Error al iniciar grabación:",
         Effect.alert "Error" "No se pudo iniciar la grabación"] }

/-- Mounted screen after this run: the record button is pressed twice before
the first `recordAsync` settles, both promises resolve, and the stop button is
pressed with `camera.stopRecording()` returning. -/
def doublePressThenStop : World :=
  stopRecording
    (startRecordingResume
      (startRecordingResume
        (startRecordingCall (startRecordingCall (mounted ⟨0⟩)))
        (RecordOutcome.accepted ⟨"file:///a.mp4"⟩))
      (RecordOutcome.accepted ⟨"file:///b.mp4"⟩))
    StopOutcome.returned

/-! ## The timer text in the words of the specification -/

/-- Minutes field as the specification words it: the decimal digits of the
minutes, with one leading zero when there is a single digit. -/
def specMinutes (m : Nat) : List Char :=
  if m < 10 then ['0', Nat.digitChar m] else Nat.toDigits 10 m

/-- Seconds field as the specification words it: the tens digit followed by
the units digit. -/
def specSeconds (s : Nat) : List Char :=
  [Nat.digitChar (s / 10), Nat.digitChar (s % 10)]

/-- Timer text as the specification words it: minutes, a colon, seconds. -/
def specTimerText (n : Nat) : String :=
  String.mk (specMinutes (n / 60) ++ ':' :: specSeconds (n % 60))

/-! ## Lemmas on the runtime -/

theorem foldl_intervalCallback (l : List Nat) (s : State) :
    l.foldl (fun s _ => intervalCallback s) s =
      { s with recordingTime := s.recordingTime + l.length } := by
  induction l generalizing s with
  | nil => rfl
  | cons a l ih =>
    rw [List.foldl_cons, ih]
    simp only [intervalCallback, List.length_cons]
    rw [Nat.add_assoc, Nat.add_comm 1]

theorem tick_recordingTime (w : World) :
    (tick w).state.recordingTime = w.state.recordingTime + w.intervals.length := by
  simp [tick, foldl_intervalCallback]

theorem tick_frame (w : World) :
    (tick w).intervals = w.intervals ∧ (tick w).nextHandle = w.nextHandle ∧
    (tick w).trace = w.trace ∧ (tick w).state.facing = w.state.facing ∧
    (tick w).state.isRecording = w.state.isRecording ∧
    (tick w).state.timerInterval = w.state.timerInterval ∧
    (tick w).state.camera = w.state.camera ∧
    (tick w).state.cameraPermission = w.state.cameraPermission ∧
    (tick w).state.mediaLibraryPermission = w.state.mediaLibraryPermission := by
  simp [tick, foldl_intervalCallback]

theorem ticks_succ (n : Nat) (w : World) : ticks (n + 1) w = tick (ticks n w) := by
  simp [ticks, Function.iterate_succ_apply']

theorem ticks_frame (n : Nat) (w : World) :
    (ticks n w).intervals = w.intervals ∧ (ticks n w).nextHandle = w.nextHandle ∧
    (ticks n w).trace = w.trace ∧ (ticks n w).state.facing = w.state.facing ∧
    (ticks n w).state.isRecording = w.state.isRecording ∧
    (ticks n w).state.timerInterval = w.state.timerInterval ∧
    (ticks n w).state.camera = w.state.camera ∧
    (ticks n w).state.cameraPermission = w.state.cameraPermission ∧
    (ticks n w).state.mediaLibraryPermission = w.state.mediaLibraryPermission := by
  induction n with
  | zero => simp [ticks]
  | succ n ih =>
    rw [ticks_succ]
    obtain ⟨h1, h2, h3, h4, h5, h6, h7, h8, h9⟩ := tick_frame (ticks n w)
    obtain ⟨i1, i2, i3, i4, i5, i6, i7, i8, i9⟩ := ih
    exact ⟨h1.trans i1, h2.trans i2, h3.trans i3, h4.trans i4, h5.trans i5,
      h6.trans i6, h7.trans i7, h8.trans i8, h9.trans i9⟩

theorem ticks_recordingTime (n : Nat) (w : World) :
    (ticks n w).state.recordingTime = w.state.recordingTime + n * w.intervals.length := by
  induction n with
  | zero => simp [ticks]
  | succ n ih =>
    rw [ticks_succ, tick_recordingTime, ih, (ticks_frame n w).1]
    ring

/-! ## Lemmas on the timer text -/

theorem toDigitsCore_length_ge (fuel n : Nat) (ds : List Char) :
    ds.length ≤ (Nat.toDigitsCore 10 fuel n ds).length ∧
    (0 < fuel → ds.length + 1 ≤ (Nat.toDigitsCore 10 fuel n ds).length) := by
  induction fuel generalizing n ds with
  | zero => simp [Nat.toDigitsCore]
  | succ fuel ih =>
    simp only [Nat.toDigitsCore]
    split
    · simp
    · have h := (ih (n / 10) (Nat.digitChar (n % 10) :: ds)).1
      simp only [List.length_cons] at h
      exact ⟨by omega, fun _ => h⟩

theorem toDigits_length_ge_two (m : Nat) (h : 10 ≤ m) : 2 ≤ (Nat.toDigits 10 m).length := by
  have hne : ¬ (m / 10 = 0) := by omega
  simp only [Nat.toDigits, Nat.toDigitsCore, hne, if_false]
  have h2 := (toDigitsCore_length_ge m (m / 10) [Nat.digitChar (m % 10)]).2 (by omega)
  simpa using h2

theorem padStart_seconds (k : Nat) (h : k < 60) :
    padStart (toString k) 2 "0" = String.mk (specSeconds k) := by
  revert k
  decide

theorem padStart_minutes (m : Nat) :
    padStart (toString m) 2 "0" = String.mk (specMinutes m) := by
  by_cases h : m < 10
  · revert m
    decide
  · have hlen : 2 ≤ (toString m).length := by
      show 2 ≤ (Nat.repr m).length
      simp only [Nat.repr, String.length, List.asString]
      exact toDigits_length_ge_two m (by omega)
    simp only [padStart, hlen, true_or, if_true, specMinutes, h, if_false]
    rfl

theorem timerText_eq_spec (n : Nat) : timerText n = specTimerText n := by
  unfold timerText specTimerText
  rw [padStart_minutes, padStart_seconds (n % 60) (Nat.mod_lt n (by decide))]
  apply String.ext
  simp [String.data_append]

theorem specMinutes_length (m : Nat) : 2 ≤ (specMinutes m).length := by
  unfold specMinutes
  split
  · simp
  · exact toDigits_length_ge_two m (by omega)

/-! ## Lemmas on traces and handlers -/

theorem alerts_append (l r : List Effect) : alerts (l ++ r) = alerts l ++ alerts r := by
  induction l with
  | nil => rfl
  | cons e l ih => cases e <;> simp [alerts, ih]

theorem cameraCalls_append (l r : List Effect) :
    cameraCalls (l ++ r) = cameraCalls l ++ cameraCalls r := by
  simp [cameraCalls, List.filter_append]

theorem mediaCalls_append (l r : List Effect) :
    mediaCalls (l ++ r) = mediaCalls l ++ mediaCalls r := by
  simp [mediaCalls, List.filter_append]

theorem grantedOf_after_granted (p : Option PermissionResponse) :
    grantedOf (if !grantedOf p then some ⟨PermissionStatus.granted⟩ else p) = true := by
  cases h : grantedOf p
  · rfl
  · simpa using h

theorem startRecording_eq_resume_call (w : World) (cam : CameraRef) (outcome : RecordOutcome)
    (hcam : w.state.camera = some cam) :
    startRecording w outcome = startRecordingResume (startRecordingCall w) outcome := by
  cases outcome <;>
    simp [startRecording, startRecordingResume, startRecordingCall, hcam]

theorem toggleCameraFacing_iterate_facing (n : Nat) (w : World) :
    (Nat.iterate toggleCameraFacing n w).state.facing =
      if n % 2 = 1 then (toggleCameraFacing w).state.facing else w.state.facing := by
  induction n with
  | zero => rfl
  | succ n ih =>
    rw [Function.iterate_succ_apply']
    have hstep : (toggleCameraFacing (Nat.iterate toggleCameraFacing n w)).state.facing =
        if (Nat.iterate toggleCameraFacing n w).state.facing = Facing.back
        then Facing.front else Facing.back := rfl
    rw [hstep, ih]
    have hw : (toggleCameraFacing w).state.facing =
        if w.state.facing = Facing.back then Facing.front else Facing.back := rfl
    rw [hw]
    rcases Nat.mod_two_eq_zero_or_one n with h | h
    · have h1 : (n + 1) % 2 = 1 := by omega
      simp [h, h1]
    · have h1 : ¬ ((n + 1) % 2 = 1) := by omega
      simp only [h, h1, if_true, if_false]
      cases w.state.facing <;> simp

theorem toggleCameraFacing_iterate_frame (n : Nat) (w : World) :
    Nat.iterate toggleCameraFacing n w =
      { w with
        state :=
          { w.state with facing := (Nat.iterate toggleCameraFacing n w).state.facing } } := by
  induction n with
  | zero => rfl
  | succ n ih =>
    rw [Function.iterate_succ_apply']
    generalize Nat.iterate toggleCameraFacing n w = v at ih ⊢
    rw [ih]
    rfl

/-! ## Claims -/

/-- C1: starting from a state whose facing is `back`, the facing after `n`
calls of `toggleCameraFacing` is `front` when `n` is odd and `back` when `n`
is even; the `n` calls change nothing but the facing, and a single call in any
state whatsoever changes nothing but the facing (recording flag, elapsed
seconds, timer handle, camera reference, cached permissions, active timers
and the trace of calls are all kept). -/
theorem toggleCameraFacing_alternates (w : World) (n : Nat)
    (hback : w.state.facing = Facing.back) :
    (Nat.iterate toggleCameraFacing n w).state.facing =
        (if n % 2 = 1 then Facing.front else Facing.back) ∧
    Nat.iterate toggleCameraFacing n w =
        { w with
          state :=
            { w.state with
              facing := if n % 2 = 1 then Facing.front else Facing.back } } ∧
    (∀ v : World,
      toggleCameraFacing v =
        { v with state := { v.state with facing := (toggleCameraFacing v).state.facing } }) := by
  have hfacing : (Nat.iterate toggleCameraFacing n w).state.facing =
      (if n % 2 = 1 then Facing.front else Facing.back) := by
    rw [toggleCameraFacing_iterate_facing]
    have hw : (toggleCameraFacing w).state.facing = Facing.front := by
      simp [toggleCameraFacing, hback]
    rw [hw, hback]
  refine ⟨hfacing, ?_, fun v => rfl⟩
  rw [← hfacing]
  exact toggleCameraFacing_iterate_frame n w

/-- Witness for C1: the first three toggles from the initial screen give
front, back, front. -/
theorem toggleCameraFacing_alternates_witness :
    (Nat.iterate toggleCameraFacing 1 (mounted ⟨0⟩)).state.facing = Facing.front ∧
    (Nat.iterate toggleCameraFacing 2 (mounted ⟨0⟩)).state.facing = Facing.back ∧
    (Nat.iterate toggleCameraFacing 3 (mounted ⟨0⟩)).state.facing = Facing.front :=
  ⟨(toggleCameraFacing_alternates (mounted ⟨0⟩) 1 rfl).1,
   (toggleCameraFacing_alternates (mounted ⟨0⟩) 2 rfl).1,
   (toggleCameraFacing_alternates (mounted ⟨0⟩) 3 rfl).1⟩

/-- Timer of a clean start: on a screen with a live camera reference, both
permissions granted, elapsed seconds 0 and no timer active, after an accepted
`startRecording` followed by `n` ticks the elapsed seconds equal `n` and the
view displays the timer text of `n`.  That text is the decimal minutes
`n / 60` padded with a leading zero to at least two characters, a colon, and
the seconds `n % 60` as exactly two digits; for 65 seconds it is "01:05". -/
theorem startRecording_ticks_timer (w : World) (cam : CameraRef) (video : Video) (n : Nat)
    (hcam : w.state.camera = some cam)
    (hcp : grantedOf w.state.cameraPermission = true)
    (hmp : grantedOf w.state.mediaLibraryPermission = true)
    (htime : w.state.recordingTime = 0)
    (hnone : w.intervals = []) :
    (ticks n (startRecording w (RecordOutcome.accepted video))).state.recordingTime = n ∧
    (render (ticks n (startRecording w (RecordOutcome.accepted video))).state).timer =
        some (timerText n) ∧
    timerText n = specTimerText n ∧
    2 ≤ (specMinutes (n / 60)).length ∧
    (specSeconds (n % 60)).length = 2 ∧
    timerText 65 = "01:05" := by
  have hstart : startRecording w (RecordOutcome.accepted video) =
      { state := { w.state with isRecording := true, timerInterval := some w.nextHandle }
        intervals := w.intervals ++ [w.nextHandle]
        nextHandle := w.nextHandle + 1
        trace := w.trace ++ [Effect.recordAsync cam] } := by
    simp [startRecording, hcam]
  obtain ⟨-, -, -, -, hrec, -, -, hc, hm⟩ :=
    ticks_frame n (startRecording w (RecordOutcome.accepted video))
  have htimeN :
      (ticks n (startRecording w (RecordOutcome.accepted video))).state.recordingTime = n := by
    rw [ticks_recordingTime, hstart]
    simp [htime, hnone]
  refine ⟨htimeN, ?_, timerText_eq_spec n, specMinutes_length _, rfl, by decide⟩
  have hrec1 :
      (ticks n (startRecording w (RecordOutcome.accepted video))).state.isRecording = true := by
    rw [hrec, hstart]
  have hc1 : grantedOf
      (ticks n (startRecording w (RecordOutcome.accepted video))).state.cameraPermission =
        true := by
    rw [hc, hstart]; exact hcp
  have hm1 : grantedOf
      (ticks n (startRecording w (RecordOutcome.accepted video))).state.mediaLibraryPermission =
        true := by
    rw [hm, hstart]; exact hmp
  simp [render, View.timer, hrec1, hc1, hm1, htimeN]

/-- C2, failing run: `doublePressThenStop` is an idle state with elapsed
seconds 0, a live camera reference and the record control shown, yet the
interval timer 1 is still active in it.  After an accepted `startRecording`
from it and 3 ticks the elapsed seconds are 6 and the view displays "00:06",
where the claim gives 3 and "00:03". -/
theorem leaked_timer_double_counts :
    doublePressThenStop.state.isRecording = false ∧
    doublePressThenStop.state.recordingTime = 0 ∧
    doublePressThenStop.state.camera = some ⟨0⟩ ∧
    (render doublePressThenStop.state).recordControls = 1 ∧
    doublePressThenStop.intervals = [1] ∧
    (startRecording doublePressThenStop
      (RecordOutcome.accepted ⟨"file:///c.mp4"⟩)).state.isRecording = true ∧
    (startRecording doublePressThenStop
      (RecordOutcome.accepted ⟨"file:///c.mp4"⟩)).intervals = [1, 3] ∧
    (ticks 3 (startRecording doublePressThenStop
      (RecordOutcome.accepted ⟨"file:///c.mp4"⟩))).state.recordingTime = 6 ∧
    (render (ticks 3 (startRecording doublePressThenStop
      (RecordOutcome.accepted ⟨"file:///c.mp4"⟩))).state).timer = some "00:06" ∧
    timerText 3 = "00:03" := by
  decide

/-- C3: in every state with a live camera reference (in particular every idle
one), when `startRecording` is called and `recordAsync` is accepted, the
recording flag becomes true, the handle of a newly started interval timer is
stored in `timerInterval` and is active in the runtime, every following tick
increases the elapsed seconds, and the facing is unchanged. -/
theorem startRecording_accepted (w : World) (cam : CameraRef) (video : Video)
    (hcam : w.state.camera = some cam) :
    (startRecording w (RecordOutcome.accepted video)).state.isRecording = true ∧
    (startRecording w (RecordOutcome.accepted video)).state.timerInterval =
        some w.nextHandle ∧
    w.nextHandle ∈ (startRecording w (RecordOutcome.accepted video)).intervals ∧
    (startRecording w (RecordOutcome.accepted video)).intervals =
        w.intervals ++ [w.nextHandle] ∧
    (startRecording w (RecordOutcome.accepted video)).state.recordingTime <
        (tick (startRecording w (RecordOutcome.accepted video))).state.recordingTime ∧
    (startRecording w (RecordOutcome.accepted video)).state.facing = w.state.facing ∧
    (startRecording w (RecordOutcome.accepted video)).trace =
        w.trace ++ [Effect.recordAsync cam] := by
  have hstart : startRecording w (RecordOutcome.accepted video) =
      { state := { w.state with isRecording := true, timerInterval := some w.nextHandle }
        intervals := w.intervals ++ [w.nextHandle]
        nextHandle := w.nextHandle + 1
        trace := w.trace ++ [Effect.recordAsync cam] } := by
    simp [startRecording, hcam]
  rw [tick_recordingTime, hstart]
  simp

/-- Witness for C3: an accepted start on the mounted, idle screen. -/
theorem startRecording_accepted_witness :
    (startRecording (mounted ⟨0⟩)
        (RecordOutcome.accepted ⟨"file:///video.mp4"⟩)).state.isRecording = true ∧
    (startRecording (mounted ⟨0⟩)
        (RecordOutcome.accepted ⟨"file:///video.mp4"⟩)).state.timerInterval = some 1 ∧
    (startRecording (mounted ⟨0⟩)
        (RecordOutcome.accepted ⟨"file:///video.mp4"⟩)).intervals = [1] ∧
    (startRecording (mounted ⟨0⟩)
        (RecordOutcome.accepted ⟨"file:///video.mp4"⟩)).state.facing = Facing.back :=
  have h := startRecording_accepted (mounted ⟨0⟩) ⟨0⟩ ⟨"file:///video.mp4"⟩ rfl
  ⟨h.1, h.2.1, h.2.2.2.1, h.2.2.2.2.2.1⟩

/-- C4: in the recording state reached from a state with a live camera
reference by an accepted `startRecording` and any number `n` of ticks, a
`stopRecording` whose camera call returns yields recording flag false and
elapsed seconds 0, cancels the interval timer that `startRecording` had
started (the active timers are those that were active before the start,
without that handle), and calls `stopRecording` on the camera exactly once. -/
theorem stopRecording_after_start (w : World) (cam : CameraRef) (video : Video) (n : Nat)
    (hcam : w.state.camera = some cam) :
    (ticks n (startRecording w (RecordOutcome.accepted video))).state.isRecording = true ∧
    (ticks n (startRecording w (RecordOutcome.accepted video))).state.timerInterval =
        some w.nextHandle ∧
    w.nextHandle ∈ (ticks n (startRecording w (RecordOutcome.accepted video))).intervals ∧
    (stopRecording (ticks n (startRecording w (RecordOutcome.accepted video)))
        StopOutcome.returned).state.isRecording = false ∧
    (stopRecording (ticks n (startRecording w (RecordOutcome.accepted video)))
        StopOutcome.returned).state.recordingTime = 0 ∧
    w.nextHandle ∉ (stopRecording (ticks n (startRecording w (RecordOutcome.accepted video)))
        StopOutcome.returned).intervals ∧
    (stopRecording (ticks n (startRecording w (RecordOutcome.accepted video)))
        StopOutcome.returned).intervals = w.intervals.filter (fun k => k != w.nextHandle) ∧
    (stopRecording (ticks n (startRecording w (RecordOutcome.accepted video)))
        StopOutcome.returned).trace =
      (ticks n (startRecording w (RecordOutcome.accepted video))).trace ++
        [Effect.stopRecording cam] ∧
    cameraCalls (stopRecording (ticks n (startRecording w (RecordOutcome.accepted video)))
        StopOutcome.returned).trace =
      cameraCalls (ticks n (startRecording w (RecordOutcome.accepted video))).trace ++
        [Effect.stopRecording cam] := by
  have hstart : startRecording w (RecordOutcome.accepted video) =
      { state := { w.state with isRecording := true, timerInterval := some w.nextHandle }
        intervals := w.intervals ++ [w.nextHandle]
        nextHandle := w.nextHandle + 1
        trace := w.trace ++ [Effect.recordAsync cam] } := by
    simp [startRecording, hcam]
  obtain ⟨hint, -, -, -, hrec, hti, hc, -, -⟩ :=
    ticks_frame n (startRecording w (RecordOutcome.accepted video))
  have hint1 : (ticks n (startRecording w (RecordOutcome.accepted video))).intervals =
      w.intervals ++ [w.nextHandle] := by rw [hint, hstart]
  have hrec1 : (ticks n (startRecording w (RecordOutcome.accepted video))).state.isRecording =
      true := by rw [hrec, hstart]
  have hti1 : (ticks n (startRecording w (RecordOutcome.accepted video))).state.timerInterval =
      some w.nextHandle := by rw [hti, hstart]
  have hc1 : (ticks n (startRecording w (RecordOutcome.accepted video))).state.camera =
      some cam := by rw [hc, hstart]; exact hcam
  clear hint hrec hti hc hstart
  generalize ticks n (startRecording w (RecordOutcome.accepted video)) = b at *
  have hstop : stopRecording b StopOutcome.returned =
      { state := { b.state with isRecording := false, recordingTime := 0 }
        intervals := clearInterval b.state.timerInterval b.intervals
        nextHandle := b.nextHandle
        trace := b.trace ++ [Effect.stopRecording cam] } := by
    simp [stopRecording, hc1]
  rw [hstop]
  simp [hrec1, hti1, hint1, clearInterval, List.filter_append, cameraCalls_append, cameraCalls]

/-- Witness for C4: start, seven ticks, stop on the mounted screen. -/
theorem stopRecording_after_start_witness :
    (stopRecording (ticks 7 (startRecording (mounted ⟨0⟩)
        (RecordOutcome.accepted ⟨"file:///video.mp4"⟩)))
        StopOutcome.returned).state.isRecording = false ∧
    (stopRecording (ticks 7 (startRecording (mounted ⟨0⟩)
        (RecordOutcome.accepted ⟨"file:///video.mp4"⟩)))
        StopOutcome.returned).state.recordingTime = 0 ∧
    (stopRecording (ticks 7 (startRecording (mounted ⟨0⟩)
        (RecordOutcome.accepted ⟨"file:///video.mp4"⟩)))
        StopOutcome.returned).intervals = [] :=
  have h := stopRecording_after_start (mounted ⟨0⟩) ⟨0⟩ ⟨"file:///video.mp4"⟩ 7 rfl
  ⟨h.2.2.2.1, h.2.2.2.2.1, h.2.2.2.2.2.2.1⟩

/-- C5, as stated, fails: when `onRecordingEnd` fires and every call
succeeds, the media library receives two calls, `createAssetAsync(uri)` and
`createAlbumAsync("Grabaciones", asset, false)`, not three. -/
theorem onRecordingEnd_mediaCalls_counterexample :
    mediaCalls (onRecordingEnd (mounted ⟨0⟩) ⟨"file:///video.mp4"⟩ (some ⟨7⟩) true).trace =
      [Effect.createAssetAsync "file:///video.mp4",
       Effect.createAlbumAsync "Grabaciones" ⟨7⟩ false] ∧
    (mediaCalls
      (onRecordingEnd (mounted ⟨0⟩) ⟨"file:///video.mp4"⟩ (some ⟨7⟩) true).trace).length ≠ 3 := by
  decide

/-- C5, amended: for every video, when `onRecordingEnd(video)` fires the media
library calls issued are `createAssetAsync(video.uri)` and then, only if that
resolved to an asset, one `createAlbumAsync("Grabaciones", asset, false)`;
exactly one alert is issued, it is the last call made, and it is the success
alert when both calls resolved and the failure alert otherwise; after a failed
`createAssetAsync` no further media library call is made.  The screen state and
the active timers are left as they were. -/
theorem onRecordingEnd_saves (w : World) (video : Video) (assetResult : Option Asset)
    (albumCreated : Bool) :
    (onRecordingEnd w video assetResult albumCreated).trace =
        w.trace ++ saveVideoEffects video.uri assetResult albumCreated ∧
    mediaCalls (saveVideoEffects video.uri assetResult albumCreated) =
        (match assetResult with
         | none => [Effect.createAssetAsync video.uri]
         | some asset =>
           [Effect.createAssetAsync video.uri,
            Effect.createAlbumAsync "Grabaciones" asset false]) ∧
    alerts (saveVideoEffects video.uri assetResult albumCreated) =
        [if assetResult.isSome && albumCreated then
           ("Video guardado", "El video se ha guardado en la galería")
         else ("Error", "No se pudo guardar el video")] ∧
    (saveVideoEffects video.uri assetResult albumCreated).getLast? =
        some
          (if assetResult.isSome && albumCreated then
             Effect.alert "Video guardado" "El video se ha guardado en la galería"
           else Effect.alert "Error" "No se pudo guardar el video") ∧
    mediaCalls (saveVideoEffects video.uri none albumCreated) =
        [Effect.createAssetAsync video.uri] ∧
    (onRecordingEnd w video assetResult albumCreated).state = w.state ∧
    (onRecordingEnd w video assetResult albumCreated).intervals = w.intervals := by
  refine ⟨rfl, ?_, ?_, ?_, ?_, rfl, rfl⟩
  · cases assetResult <;> cases albumCreated <;> simp [saveVideoEffects, mediaCalls]
  · cases assetResult <;> cases albumCreated <;> simp [saveVideoEffects, alerts]
  · cases assetResult <;> cases albumCreated <;> simp [saveVideoEffects]
  · simp [saveVideoEffects, mediaCalls]

/-- C6: in every state with a camera reference, when `recordAsync` rejects in
`startRecording`, or `camera.stopRecording()` throws in `stopRecording`, the
whole screen state, the active interval timers and the next timer handle are
exactly as before the call (so an idle screen stays idle, and a recording screen
keeps its running timer and its elapsed seconds), exactly one alert titled
"Error" is issued, and the camera receives exactly the one call that failed. -/
theorem camera_failure_keeps_state (w : World) (cam : CameraRef)
    (hcam : w.state.camera = some cam) :
    ((startRecording w RecordOutcome.rejected).state = w.state ∧
     (startRecording w RecordOutcome.rejected).intervals = w.intervals ∧
     (startRecording w RecordOutcome.rejected).nextHandle = w.nextHandle ∧
     alerts (startRecording w RecordOutcome.rejected).trace =
        alerts w.trace ++ [("Error", "No se pudo iniciar la grabación")] ∧
     cameraCalls (startRecording w RecordOutcome.rejected).trace =
        cameraCalls w.trace ++ [Effect.recordAsync cam]) ∧
    ((stopRecording w StopOutcome.thrown).state = w.state ∧
     (stopRecording w StopOutcome.thrown).intervals = w.intervals ∧
     (stopRecording w StopOutcome.thrown).nextHandle = w.nextHandle ∧
     alerts (stopRecording w StopOutcome.thrown).trace =
        alerts w.trace ++ [("Error", "No se pudo detener la grabación")] ∧
     cameraCalls (stopRecording w StopOutcome.thrown).trace =
        cameraCalls w.trace ++ [Effect.stopRecording cam]) := by
  have hstart : startRecording w RecordOutcome.rejected =
      { w with
        trace := w.trace ++
          [Effect.recordAsync cam,
           Effect.consoleError "Error al iniciar grabación:",
           Effect.alert "Error" "No se pudo iniciar la grabación"] } := by
    simp [startRecording, hcam]
  have hstop : stopRecording w StopOutcome.thrown =
      { w with
        trace := w.trace ++
          [Effect.stopRecording cam,
           Effect.consoleError "Error al detener grabación:",
           Effect.alert "Error" "No se pudo detener la grabación"] } := by
    simp [stopRecording, hcam]
  rw [hstart, hstop]
  simp [alerts_append, cameraCalls_append, alerts, cameraCalls]

/-- Witness for C6: a failed stop while recording, three seconds in, keeps the
recording flag, the elapsed seconds and the running timer; a failed start on
the idle screen keeps it idle. -/
theorem camera_failure_keeps_state_witness :
    (stopRecording (ticks 3 (startRecording (mounted ⟨0⟩)
        (RecordOutcome.accepted ⟨"file:///video.mp4"⟩))) StopOutcome.thrown).state =
      (ticks 3 (startRecording (mounted ⟨0⟩)
        (RecordOutcome.accepted ⟨"file:///video.mp4"⟩))).state ∧
    (stopRecording (ticks 3 (startRecording (mounted ⟨0⟩)
        (RecordOutcome.accepted ⟨"file:///video.mp4"⟩))) StopOutcome.thrown).intervals =
      (ticks 3 (startRecording (mounted ⟨0⟩)
        (RecordOutcome.accepted ⟨"file:///video.mp4"⟩))).intervals ∧
    (startRecording (mounted ⟨0⟩) RecordOutcome.rejected).state = (mounted ⟨0⟩).state :=
  ⟨(camera_failure_keeps_state
      (ticks 3 (startRecording (mounted ⟨0⟩) (RecordOutcome.accepted ⟨"file:///video.mp4"⟩)))
      ⟨0⟩ rfl).2.1,
   (camera_failure_keeps_state
      (ticks 3 (startRecording (mounted ⟨0⟩) (RecordOutcome.accepted ⟨"file:///video.mp4"⟩)))
      ⟨0⟩ rfl).2.2.1,
   (camera_failure_keeps_state (mounted ⟨0⟩) ⟨0⟩ rfl).1.1⟩

/-- C7: for every pair of cached permission objects, the mount effect issues
a request for exactly those capabilities whose cached object is not granted,
each at most once and the camera one first: the calls it adds to the trace are
`permissionRequests`, which contains the camera request iff the camera
permission is not granted and the media library request iff the media library
permission is not granted, and nothing else; for cached statuses `c` and `m`
that means: the camera request iff `c` is not `granted`, the media library
request iff `m` is not `granted`.  With both undetermined the
requests are the two, one per capability; with both granted there is none; and
once a first run has resolved both to granted, a second run adds no call. -/
theorem permissionEffect_requests (w : World) (cameraAnswer mediaLibraryAnswer : PermissionStatus) :
    (permissionEffect w cameraAnswer mediaLibraryAnswer).trace =
        w.trace ++ permissionRequests w.state ∧
    (Effect.requestCameraPermission ∈ permissionRequests w.state ↔
        grantedOf w.state.cameraPermission = false) ∧
    (Effect.requestMediaLibraryPermission ∈ permissionRequests w.state ↔
        grantedOf w.state.mediaLibraryPermission = false) ∧
    (∀ e ∈ permissionRequests w.state,
        e = Effect.requestCameraPermission ∨ e = Effect.requestMediaLibraryPermission) ∧
    (permissionRequests w.state).length =
        (if grantedOf w.state.cameraPermission then 0 else 1) +
        (if grantedOf w.state.mediaLibraryPermission then 0 else 1) ∧
    (∀ c m : PermissionStatus,
      (Effect.requestCameraPermission ∈
          permissionRequests
            { w.state with cameraPermission := some ⟨c⟩, mediaLibraryPermission := some ⟨m⟩ } ↔
        c ≠ PermissionStatus.granted) ∧
      (Effect.requestMediaLibraryPermission ∈
          permissionRequests
            { w.state with cameraPermission := some ⟨c⟩, mediaLibraryPermission := some ⟨m⟩ } ↔
        m ≠ PermissionStatus.granted)) ∧
    permissionRequests
        { w.state with
          cameraPermission := some ⟨PermissionStatus.undetermined⟩
          mediaLibraryPermission := some ⟨PermissionStatus.undetermined⟩ } =
      [Effect.requestCameraPermission, Effect.requestMediaLibraryPermission] ∧
    permissionRequests
        { w.state with
          cameraPermission := some ⟨PermissionStatus.granted⟩
          mediaLibraryPermission := some ⟨PermissionStatus.granted⟩ } = [] ∧
    (permissionEffect
        (permissionEffect w PermissionStatus.granted PermissionStatus.granted)
        cameraAnswer mediaLibraryAnswer).trace =
      (permissionEffect w PermissionStatus.granted PermissionStatus.granted).trace := by
  refine ⟨rfl, ?_, ?_, ?_, ?_, ?_, rfl, rfl, ?_⟩
  rotate_left 4
  · intro c m
    cases c <;> cases m <;>
      simp [permissionRequests, grantedOf, PermissionResponse.granted]
  rotate_right 4
  · cases hc : grantedOf w.state.cameraPermission <;>
      cases hm : grantedOf w.state.mediaLibraryPermission <;>
      simp [permissionRequests, hc, hm]
  · cases hc : grantedOf w.state.cameraPermission <;>
      cases hm : grantedOf w.state.mediaLibraryPermission <;>
      simp [permissionRequests, hc, hm]
  · cases hc : grantedOf w.state.cameraPermission <;>
      cases hm : grantedOf w.state.mediaLibraryPermission <;>
      simp [permissionRequests, hc, hm]
  · cases hc : grantedOf w.state.cameraPermission <;>
      cases hm : grantedOf w.state.mediaLibraryPermission <;>
      simp [permissionRequests, hc, hm]
  · have hc := grantedOf_after_granted w.state.cameraPermission
    have hm := grantedOf_after_granted w.state.mediaLibraryPermission
    have hnone :
        permissionRequests
          (permissionEffect w PermissionStatus.granted PermissionStatus.granted).state = [] := by
      simp only [permissionRequests, permissionEffect, hc, hm]
      rfl
    show (permissionEffect w PermissionStatus.granted PermissionStatus.granted).trace ++
        permissionRequests
          (permissionEffect w PermissionStatus.granted PermissionStatus.granted).state = _
    rw [hnone, List.append_nil]

/-- C8, failing run: on the mounted screen the record control is shown, and
it is still shown (the recording flag still false) while the first
`recordAsync` is pending, so the record button can be pressed twice.  Once both
promises have resolved and the stop button is pressed, `clearInterval` clears
only the handle stored last, 2: the recording flag is false while interval
timer 1 is still active, and the next period raises the elapsed seconds from 0
to 1 on the idle screen. -/
theorem double_press_leaks_timer :
    (render (mounted ⟨0⟩).state).recordControls = 1 ∧
    (startRecordingCall (mounted ⟨0⟩)).state.isRecording = false ∧
    (render (startRecordingCall (mounted ⟨0⟩)).state).recordControls = 1 ∧
    (startRecordingResume
      (startRecordingResume
        (startRecordingCall (startRecordingCall (mounted ⟨0⟩)))
        (RecordOutcome.accepted ⟨"file:///a.mp4"⟩))
      (RecordOutcome.accepted ⟨"file:///b.mp4"⟩)).intervals = [1, 2] ∧
    (startRecordingResume
      (startRecordingResume
        (startRecordingCall (startRecordingCall (mounted ⟨0⟩)))
        (RecordOutcome.accepted ⟨"file:///a.mp4"⟩))
      (RecordOutcome.accepted ⟨"file:///b.mp4"⟩)).state.timerInterval = some 2 ∧
    doublePressThenStop.state.isRecording = false ∧
    doublePressThenStop.intervals = [1] ∧
    doublePressThenStop.state.recordingTime = 0 ∧
    (tick doublePressThenStop).state.isRecording = false ∧
    (tick doublePressThenStop).state.recordingTime = 1 := by
  decide

/-- C9, as stated, fails: while the camera permission is undetermined the
component renders the permission gate, which shows neither the record control
nor the stop control. -/
theorem render_controls_counterexample :
    (render (initialState (some ⟨PermissionStatus.undetermined⟩)
      (some ⟨PermissionStatus.granted⟩))).recordControls = 0 ∧
    (render (initialState (some ⟨PermissionStatus.undetermined⟩)
      (some ⟨PermissionStatus.granted⟩))).stopControls = 0 := by
  decide

/-- C9, amended: for every screen state the rendered view never shows both the
record control and the stop control; when both permissions are granted it shows
exactly one of them, the record control while idle and the stop control while
recording; when a permission is not granted it shows neither. -/
theorem render_controls (s : State) :
    (render s).recordControls + (render s).stopControls ≤ 1 ∧
    (render s).recordControls + (render s).stopControls =
      (if grantedOf s.cameraPermission && grantedOf s.mediaLibraryPermission
       then 1 else 0) ∧
    (render s).recordControls =
      (if grantedOf s.cameraPermission && grantedOf s.mediaLibraryPermission &&
          !s.isRecording then 1 else 0) ∧
    (render s).stopControls =
      (if grantedOf s.cameraPermission && grantedOf s.mediaLibraryPermission &&
          s.isRecording then 1 else 0) := by
  cases hc : grantedOf s.cameraPermission <;>
    cases hm : grantedOf s.mediaLibraryPermission <;>
    cases hr : s.isRecording <;>
    simp [render, View.recordControls, View.stopControls, View.touchables, hc, hm, hr]

/-- C10, as stated, fails: on the screen that is recording after an accepted
start, `onRecordingEnd` firing on its own (the save succeeding) leaves the
recording flag true and the interval timer active. -/
theorem onRecordingEnd_keeps_recording_counterexample :
    (startRecording (mounted ⟨0⟩)
      (RecordOutcome.accepted ⟨"file:///video.mp4"⟩)).state.isRecording = true ∧
    (onRecordingEnd
      (startRecording (mounted ⟨0⟩) (RecordOutcome.accepted ⟨"file:///video.mp4"⟩))
      ⟨"file:///video.mp4"⟩ (some ⟨7⟩) true).state.isRecording = true ∧
    (onRecordingEnd
      (startRecording (mounted ⟨0⟩) (RecordOutcome.accepted ⟨"file:///video.mp4"⟩))
      ⟨"file:///video.mp4"⟩ (some ⟨7⟩) true).intervals = [1] := by
  decide

/-- C10, amended: for every state with the recording flag true, when
`onRecordingEnd` fires without a preceding user `stopRecording`, the recording
flag is still true afterwards: the whole screen state and the active timers are
unchanged, and the only calls made are those of `saveVideo`. -/
theorem onRecordingEnd_keeps_recording (w : World) (video : Video)
    (assetResult : Option Asset) (albumCreated : Bool)
    (hrec : w.state.isRecording = true) :
    (onRecordingEnd w video assetResult albumCreated).state.isRecording = true ∧
    (onRecordingEnd w video assetResult albumCreated).state = w.state ∧
    (onRecordingEnd w video assetResult albumCreated).intervals = w.intervals ∧
    (onRecordingEnd w video assetResult albumCreated).trace =
      w.trace ++ saveVideoEffects video.uri assetResult albumCreated :=
  ⟨hrec, rfl, rfl, rfl⟩

/-- Witness for C10: the device ends the recording five seconds after an
accepted start. -/
theorem onRecordingEnd_keeps_recording_witness :
    (onRecordingEnd
      (ticks 5 (startRecording (mounted ⟨0⟩) (RecordOutcome.accepted ⟨"file:///video.mp4"⟩)))
      ⟨"file:///video.mp4"⟩ (some ⟨7⟩) true).state.isRecording = true :=
  (onRecordingEnd_keeps_recording
    (ticks 5 (startRecording (mounted ⟨0⟩) (RecordOutcome.accepted ⟨"file:///video.mp4"⟩)))
    ⟨"file:///video.mp4"⟩ (some ⟨7⟩) true rfl).1

end CamaraReact
